import Mathlib

/-!
Shallow embedding of the New-Era-AI-Form front end (React/JS) for checking
its specification.

Source files embedded here:
* `CameraInterface` (enhanced variant): camera tier negotiation
  (`getCameraConstraints`, `initializeCamera`) and the face-validation
  polling loop (`startFaceValidation`).
* `GestureInterface`: the gesture polling loop (`startGestureDetection`)
  and the manual fallback handlers (`handleManualYes`, `handleManualNo`).
* `App`: the view state machine (`renderView` and the `handle*` callbacks).

Modelling conventions:

* React component state (`useState`) is modelled as fields of an explicit
  state record; `setX(v)` becomes a field update of the live state.
* JavaScript closure capture is modelled faithfully where it matters for
  the polling loops: a `setInterval` callback created during one render
  closes over that render's `const` bindings of the state variables.
  `setState` makes *later renders* see a new value but never mutates the
  binding captured by an already-created callback.  The engines therefore
  carry both the live state field (`isProcessing`, `isDetecting`), which
  the render reads, and the value captured by the interval callback at
  creation time (`capturedIsProcessing`, `capturedIsDetecting`), which the
  tick handler reads and which no transition ever updates.
* The browser event loop is modelled by deterministic step functions over
  an explicit event list: `tick` (the interval fires; the payload is the
  `captureFrame()` result), `settle` (an outstanding HTTP call resolves),
  button clicks, and `fire` (a scheduled `setTimeout` callback runs).
* `getUserMedia` and `captureFrame` are external effects; they enter the
  model as oracles (`avail : String → Bool`, the optional frame payload of
  a tick).
* `axios.post` outcomes are a tagged union: a parsed response body, or a
  transport failure (the `catch` branch).
-/

namespace NewEraAI

/-- A user record as produced by the backend and stored by `App`
(`{name, email}` are the fields the views read). -/
structure UserRec where
  name : String
  email : String
deriving DecidableEq, Repr

/-- The component returned by one branch of `App.renderView`. -/
inductive Component where
  | cameraInterface
  | gestureInterface
  | registrationForm
  | mainPage
  | guestPage
  | headPoseDisplay
deriving DecidableEq, Repr

/-- The state held at the top of `App`: `currentView` (a JS string,
initially the string camera) and `user` (initially null). -/
structure AppState where
  currentView : String
  user : Option UserRec
deriving DecidableEq, Repr

/-- App.jsx line 11-12: `useState` initial values. -/
def appInit : AppState := { currentView := "camera", user := none }

/-- App.jsx lines 14-17: store the passed record and go to the main view.
The source stores `userData` exactly as received (it may be absent when the
backend omits `user`). -/
def handleLoginSuccess (userData : Option UserRec) (s : AppState) : AppState :=
  { s with user := userData, currentView := "main" }

/-- App.jsx lines 19-21. -/
def handleRegisterPrompt (s : AppState) : AppState :=
  { s with currentView := "gesture" }

/-- The constant guest record built inline in App.jsx line 24. -/
def guestUser : UserRec := { name := "Guest", email := "guest@example.com" }

/-- App.jsx lines 23-26: every guest path funnels through this handler. -/
def handleGuestAccess (s : AppState) : AppState :=
  { s with user := some guestUser, currentView := "guest" }

/-- App.jsx lines 28-31. -/
def handleRegistrationComplete (userData : Option UserRec) (s : AppState) : AppState :=
  { s with user := userData, currentView := "main" }

/-- App.jsx lines 33-35: the logout / restart handler.  It only switches
the view; it performs no other update. -/
def handleBackToCamera (s : AppState) : AppState :=
  { s with currentView := "camera" }

/-- App.jsx lines 37-76: the `switch (currentView)` with a default branch
returning the camera interface.  Total by construction: every branch of
the source `switch` returns a component and the default catches the rest. -/
def renderView (currentView : String) : Component :=
  if currentView = "camera" then Component.cameraInterface
  else if currentView = "gesture" then Component.gestureInterface
  else if currentView = "register" then Component.registrationForm
  else if currentView = "main" then Component.mainPage
  else if currentView = "guest" then Component.guestPage
  else if currentView = "health" then Component.headPoseDisplay
  else Component.cameraInterface

/-- The six view names with their own `case` in `renderView`. -/
def recognizedViews : List String :=
  ["camera", "gesture", "register", "main", "guest", "health"]

/-- RegistrationForm.jsx lines 264-270: the continue-as-guest button's
`onClick` is the `onGuestAccess` prop, which App.jsx line 58 binds to
`handleGuestAccess`. -/
def registrationGuestClick (s : AppState) : AppState :=
  handleGuestAccess s

/-! ### Camera acquisition (CameraInterface, enhanced variant) -/

/-- The constraint object built by `getCameraConstraints`
(part_000 lines 21-58), reduced to its decision-relevant fields. -/
structure VideoConstraints where
  width : Nat
  height : Nat
  frameRate : Nat
  audio : Bool
deriving DecidableEq, Repr

/-- part_000 lines 21-58: base constraints 1920x1080@60 with audio false,
then a quality switch; the default case leaves the base unchanged. -/
def getCameraConstraints (quality : String) : VideoConstraints :=
  let base : VideoConstraints :=
    { width := 1920, height := 1080, frameRate := 60, audio := false }
  if quality = "ultra" then { base with width := 3840, height := 2160, frameRate := 30 }
  else if quality = "high" then base
  else if quality = "medium" then { base with width := 1280, height := 720, frameRate := 30 }
  else base

/-- The fixed tier list of part_000 line 66. -/
def qualities : List String := ["high", "medium", "default"]

/-- The for-of loop of `initializeCamera` (part_000 lines 68-82),
parameterised by an oracle `avail` saying whether `getUserMedia` succeeds
for a tier.  Returns the list of tiers actually attempted (in order) and
the first tier that succeeded, if any: on success the loop `break`s, on a
rejection the `catch` does `continue`. -/
def tryQualities (avail : String → Bool) : List String → List String × Option String
  | [] => ([], none)
  | q :: qs =>
    if avail q then ([q], some q)
    else
      let r := tryQualities avail qs
      (q :: r.1, r.2)

/-- Message set by the outer catch of `initializeCamera` (part_000 line 102). -/
def cameraFailMsg : String := "❌ Camera access failed. Please check permissions and try again."

/-- Message set in the `onloadedmetadata` handler (part_000 line 93). -/
def cameraReadyMsg : String := "✅ Camera ready! Positioning face in center..."

/-- Outcome of `initializeCamera` (part_000 lines 60-104). -/
structure CameraInitResult where
  /-- the argument of `setCameraQuality`, called only on a successful tier -/
  cameraQuality : Option String
  message : String
  /-- whether `startFaceValidation` gets started; it is reachable only via
  the `onloadedmetadata` handler installed after a stream was obtained,
  while the no-stream path throws into the outer catch first -/
  pollingStarted : Bool
deriving DecidableEq, Repr

/-- part_000 lines 60-104: run the tier loop; with no stream the function
throws (line 85), lands in the outer catch (lines 100-103), sets the
failure message and never installs the handler that starts polling. -/
def initializeCamera (avail : String → Bool) (tiers : List String) : CameraInitResult :=
  match (tryQualities avail tiers).2 with
  | none => { cameraQuality := none, message := cameraFailMsg, pollingStarted := false }
  | some q => { cameraQuality := some q, message := cameraReadyMsg, pollingStarted := true }

/-! ### Face-validation polling engine (`startFaceValidation`, part_000 lines 169-204)

`startFaceValidation` creates one interval.  Its async callback reads the
`isProcessing` binding of the render in which the interval was created
(the mount render, where `useState(false)` gives false): later
`setIsProcessing` calls re-render the component with a fresh binding but
do not change the one this callback closed over.  The engine state
records that captured value separately from the live React state. -/

/-- Parsed body of a `/api/validate-face` response
(`{success, user?, action?, message?}`). -/
structure FaceResponse where
  success : Bool
  user : Option UserRec
  action : Option String
  message : Option String
deriving DecidableEq, Repr

/-- Settlement of one `axios.post` call: a parsed response, or a transport
failure taking the `catch` branch. -/
inductive FaceResult where
  | ok (data : FaceResponse)
  | netError
deriving DecidableEq, Repr

/-- State of one `CameraInterface` polling loop instance. -/
structure FaceEngine where
  /-- the `isProcessing` value captured by the interval callback's closure
  at interval creation; no transition updates it, because `setIsProcessing`
  never mutates an already-captured binding -/
  capturedIsProcessing : Bool
  /-- the live React state (what the latest render and the UI read) -/
  isProcessing : Bool
  /-- whether the interval is still scheduled (`clearInterval` unschedules it) -/
  intervalActive : Bool
  /-- unsettled `/api/validate-face` calls -/
  inFlight : Nat
  /-- total calls submitted so far -/
  issued : Nat
  /-- the `message` state (the status line); `setMessage` may receive an
  absent field of the response body -/
  message : Option String
deriving DecidableEq, Repr

/-- Engine plus the `App` state its outcome callbacks update. -/
structure FaceSystem where
  engine : FaceEngine
  app : AppState
deriving DecidableEq, Repr

/-- Engine state right after `startFaceValidation` ran (mount render:
`isProcessing` is false, so the interval callback captured false). -/
def faceEngineInit : FaceEngine :=
  { capturedIsProcessing := false, isProcessing := false, intervalActive := true,
    inFlight := 0, issued := 0, message := some cameraReadyMsg }

def faceSystemInit : FaceSystem := { engine := faceEngineInit, app := appInit }

/-- Events delivered to a `CameraInterface` instance by the event loop. -/
inductive FaceEvent where
  | tick (frame : Option String)
  | settle (r : FaceResult)
deriving DecidableEq, Repr

/-- One interval firing (part_000 lines 170-176): a cleared interval never
fires; the guard on line 171 reads the closure-captured `isProcessing`;
a `null` frame (line 174) skips the tick; otherwise `setIsProcessing(true)`
and the post on line 180 starts a new in-flight call. -/
def faceTick (frame : Option String) (s : FaceSystem) : FaceSystem :=
  if s.engine.intervalActive = false then s
  else if s.engine.capturedIsProcessing then s
  else
    match frame with
    | none => s
    | some _ =>
      { s with engine := { s.engine with
          isProcessing := true,
          inFlight := s.engine.inFlight + 1,
          issued := s.engine.issued + 1 } }

/-- Message of the `catch` branch (part_000 line 199). -/
def serviceUnavailableMsg : String := "Face detection service unavailable. Please try again."

/-- Settlement of one in-flight call (part_000 lines 186-202): on
`success` clear the interval and call `onLoginSuccess` (App stores the
record and shows main); on `action` register_prompt clear the interval and
call `onRegisterPrompt` (App shows gesture); otherwise surface the
response message; on transport failure surface the generic message.  The
`finally` (line 201) does `setIsProcessing(false)` in every branch. -/
def faceSettle (r : FaceResult) (s : FaceSystem) : FaceSystem :=
  let s0 := { s with engine := { s.engine with inFlight := s.engine.inFlight - 1 } }
  let s1 :=
    match r with
    | FaceResult.ok data =>
      if data.success then
        { s0 with engine := { s0.engine with intervalActive := false },
                  app := handleLoginSuccess data.user s0.app }
      else if data.action = some "register_prompt" then
        { s0 with engine := { s0.engine with intervalActive := false },
                  app := handleRegisterPrompt s0.app }
      else
        { s0 with engine := { s0.engine with message := data.message } }
    | FaceResult.netError =>
        { s0 with engine := { s0.engine with message := some serviceUnavailableMsg } }
  { s1 with engine := { s1.engine with isProcessing := false } }

def faceStep (e : FaceEvent) (s : FaceSystem) : FaceSystem :=
  match e with
  | FaceEvent.tick frame => faceTick frame s
  | FaceEvent.settle r => faceSettle r s

/-- Run a whole event sequence through the face engine. -/
def faceRun (evs : List FaceEvent) (s : FaceSystem) : FaceSystem :=
  evs.foldl (fun t e => faceStep e t) s

/-! ### Gesture decision unit (`GestureInterface`, lines 50-109)

`startGestureDetection` is called from the mount effect, so its interval
callback captures the mount render's bindings: `isDetecting = true` and
`message` = the initial prompt.  As with the face engine, `setIsDetecting`
re-renders with a new binding but never mutates the captured one, so the
`if (!isDetecting) clearInterval(...)` branch at the top of the tick reads
a constant true.  The live `isDetecting` state still drives the render:
both manual buttons carry `disabled={!isDetecting}`. -/

/-- Parsed body of a `/api/detect-gesture` response
(`{success, detected?, gesture?}`; an absent `detected` is falsy). -/
structure GestureResponse where
  success : Bool
  detected : Bool
  gesture : Option String
deriving DecidableEq, Repr

/-- Settlement of one gesture call: parsed response or transport failure. -/
inductive GestureResult where
  | ok (data : GestureResponse)
  | netError
deriving DecidableEq, Repr

/-- The two outcome callbacks a `GestureInterface` can invoke:
`onRegistrationStart` (App: go to register) and `onGuestAccess`
(App: `handleGuestAccess`). -/
inductive GEmit where
  | registrationStart
  | guestAccess
deriving DecidableEq, Repr

/-- A `setTimeout` scheduled but not yet fired: its delay in milliseconds
and the outcome callback it will invoke. -/
structure PendingEmit where
  delayMs : Nat
  emit : GEmit
deriving DecidableEq, Repr

/-- State of one `GestureInterface` instance. -/
structure GestureEngine where
  /-- the `isDetecting` value captured by the interval callback at
  creation (mount: true); no transition updates it -/
  capturedIsDetecting : Bool
  /-- the live React state; the manual buttons are disabled iff it is false -/
  isDetecting : Bool
  intervalActive : Bool
  inFlight : Nat
  issued : Nat
  gestureDetected : Option String
  message : String
  /-- scheduled outcome timeouts, oldest first -/
  pending : List PendingEmit
  /-- outcome callbacks actually invoked so far, in order -/
  emitted : List GEmit
deriving DecidableEq, Repr

structure GestureSystem where
  engine : GestureEngine
  app : AppState
deriving DecidableEq, Repr

def gesturePromptMsg : String := "Move your head LEFT for Yes, RIGHT for No"
def yesDetectedMsg : String := "✅ Yes detected! Starting registration..."
def noDetectedMsg : String := "❌ No detected. Redirecting to guest access..."
def yesSelectedMsg : String := "✅ Yes selected! Starting registration..."
def noSelectedMsg : String := "❌ No selected. Redirecting to guest access..."
def gestureUnavailableMsg : String := "Gesture detection unavailable. Use buttons below."

/-- GestureInterface mount: `useState` initial values and the interval
just created by the mount effect (captured `isDetecting` is true). -/
def gestureEngineInit : GestureEngine :=
  { capturedIsDetecting := true, isDetecting := true, intervalActive := true,
    inFlight := 0, issued := 0, gestureDetected := none,
    message := gesturePromptMsg, pending := [], emitted := [] }

/-- App got here via the needs-registration event (view gesture, no user). -/
def gestureSystemInit : GestureSystem :=
  { engine := gestureEngineInit, app := { currentView := "gesture", user := none } }

/-- Events delivered to a `GestureInterface` instance. -/
inductive GestureEvent where
  | tick (frame : Option String)
  | settle (r : GestureResult)
  | clickYes
  | clickNo
  | fire (i : Nat)
deriving DecidableEq, Repr

/-- One interval firing (GestureInterface lines 51-58): the stop check on
line 52 reads the closure-captured `isDetecting`; a `null` frame skips;
otherwise the post on line 61 starts a new in-flight call (this loop has
no in-flight guard at all). -/
def gestureTick (frame : Option String) (s : GestureSystem) : GestureSystem :=
  if s.engine.intervalActive = false then s
  else if s.engine.capturedIsDetecting = false then
    { s with engine := { s.engine with intervalActive := false } }
  else
    match frame with
    | none => s
    | some _ =>
      { s with engine := { s.engine with
          inFlight := s.engine.inFlight + 1,
          issued := s.engine.issued + 1 } }

/-- Settlement of one gesture call (lines 65-90).  With
`success && detected`: record the gesture; on left set the live
`isDetecting` false, show the yes message and schedule
`onRegistrationStart` in 2000 ms; on right symmetrically schedule
`onGuestAccess` in 2000 ms; any other gesture only records.  Without
`success && detected` nothing happens (no else branch).  A transport
failure sets the fallback hint: the guard on line 87 reads the
closure-captured initial `message`, which never contains the hint text,
so the set always happens. -/
def gestureSettle (r : GestureResult) (s : GestureSystem) : GestureSystem :=
  let s0 := { s with engine := { s.engine with inFlight := s.engine.inFlight - 1 } }
  match r with
  | GestureResult.ok data =>
    if data.success && data.detected then
      let e1 := { s0.engine with gestureDetected := data.gesture }
      if data.gesture = some "left" then
        { s0 with engine := { e1 with
            isDetecting := false, message := yesDetectedMsg,
            pending := e1.pending ++ [{ delayMs := 2000, emit := GEmit.registrationStart }] } }
      else if data.gesture = some "right" then
        { s0 with engine := { e1 with
            isDetecting := false, message := noDetectedMsg,
            pending := e1.pending ++ [{ delayMs := 2000, emit := GEmit.guestAccess }] } }
      else
        { s0 with engine := e1 }
    else s0
  | GestureResult.netError =>
      { s0 with engine := { s0.engine with message := gestureUnavailableMsg } }

/-- GestureInterface lines 97-102.  A disabled button cannot be clicked,
and the `disabled` prop reads the live `isDetecting`, so the click is a
no-op once it is false.  Otherwise: live stop flag cleared, gesture
recorded, message set, `onRegistrationStart` scheduled in 1500 ms. -/
def handleManualYes (s : GestureSystem) : GestureSystem :=
  if s.engine.isDetecting = false then s
  else
    { s with engine := { s.engine with
        isDetecting := false, gestureDetected := some "left",
        message := yesSelectedMsg,
        pending := s.engine.pending ++ [{ delayMs := 1500, emit := GEmit.registrationStart }] } }

/-- GestureInterface lines 104-109, symmetric to `handleManualYes` with
`onGuestAccess` scheduled in 1500 ms. -/
def handleManualNo (s : GestureSystem) : GestureSystem :=
  if s.engine.isDetecting = false then s
  else
    { s with engine := { s.engine with
        isDetecting := false, gestureDetected := some "right",
        message := noSelectedMsg,
        pending := s.engine.pending ++ [{ delayMs := 1500, emit := GEmit.guestAccess }] } }

/-- A scheduled timeout fires: invoke its outcome callback.
`onRegistrationStart` is App's `() => setCurrentView('register')`
(App.jsx line 49); `onGuestAccess` is `handleGuestAccess` (line 50). -/
def fireAt (i : Nat) (s : GestureSystem) : GestureSystem :=
  match s.engine.pending.get? i with
  | none => s
  | some p =>
    let app' :=
      match p.emit with
      | GEmit.registrationStart => { s.app with currentView := "register" }
      | GEmit.guestAccess => handleGuestAccess s.app
    { engine := { s.engine with
        pending := s.engine.pending.eraseIdx i,
        emitted := s.engine.emitted ++ [p.emit] },
      app := app' }

def gestureStep (e : GestureEvent) (s : GestureSystem) : GestureSystem :=
  match e with
  | GestureEvent.tick frame => gestureTick frame s
  | GestureEvent.settle r => gestureSettle r s
  | GestureEvent.clickYes => handleManualYes s
  | GestureEvent.clickNo => handleManualNo s
  | GestureEvent.fire i => fireAt i s

def gestureRun (evs : List GestureEvent) (s : GestureSystem) : GestureSystem :=
  evs.foldl (fun t e => gestureStep e t) s

/-- The `disabled` prop of both manual buttons (lines 165 and 172). -/
def manualButtonsDisabled (s : GestureSystem) : Bool :=
  !s.engine.isDetecting

/-! ### Camera release on view teardown

Every camera-owning component (CameraInterface lines 14-18,
GestureInterface lines 16-20, RegistrationForm lines 21-25,
HeadPoseDisplay) installs the same unmount cleanup:
`streamRef.current.getTracks().forEach(track => track.stop())`.
`streamRef` is a `useRef`, a stable mutable cell, so the cleanup reads the
live stream (no closure staleness here).  A stream is modelled as the
liveness flags of its tracks. -/

/-- `getTracks().forEach(track => track.stop())`: every track ends stopped. -/
def stopTracks (tracks : List Bool) : List Bool :=
  tracks.map (fun _ => false)

/-- The unmount cleanup: a no-op without a stream, else stop every track.
React runs it whenever a view switch unmounts the component. -/
def unmountCleanup (streamRef : Option (List Bool)) : Option (List Bool) :=
  streamRef.map stopTracks

/-! ## Helper lemmas -/

theorem faceRun_cons (e : FaceEvent) (evs : List FaceEvent) (s : FaceSystem) :
    faceRun (e :: evs) s = faceRun evs (faceStep e s) := rfl

/-- A settlement never submits a new call. -/
theorem faceSettle_issued (r : FaceResult) (s : FaceSystem) :
    (faceSettle r s).engine.issued = s.engine.issued := by
  cases r with
  | ok data =>
    by_cases h1 : data.success = true
    · simp [faceSettle, h1]
    · by_cases h2 : data.action = some "register_prompt" <;>
        simp [faceSettle, h1, h2]
  | netError => simp [faceSettle]

/-- A settlement never re-schedules a cleared interval. -/
theorem faceSettle_stopped (r : FaceResult) (s : FaceSystem)
    (h : s.engine.intervalActive = false) :
    (faceSettle r s).engine.intervalActive = false := by
  cases r with
  | ok data =>
    by_cases h1 : data.success = true
    · simp [faceSettle, h1]
    · by_cases h2 : data.action = some "register_prompt" <;>
        simp [faceSettle, h1, h2, h]
  | netError => simp [faceSettle, h]

/-- A cleared interval never fires. -/
theorem faceTick_stopped (frame : Option String) (s : FaceSystem)
    (h : s.engine.intervalActive = false) :
    faceTick frame s = s := by
  simp [faceTick, h]

/-- Once the interval is cleared, no sequence of further events submits
another classification call. -/
theorem faceRun_frozen : ∀ (evs : List FaceEvent) (s : FaceSystem),
    s.engine.intervalActive = false →
    (faceRun evs s).engine.intervalActive = false ∧
    (faceRun evs s).engine.issued = s.engine.issued := by
  intro evs
  induction evs with
  | nil => intro s h; exact ⟨h, rfl⟩
  | cons e evs ih =>
    intro s h
    have hstep : (faceStep e s).engine.intervalActive = false ∧
        (faceStep e s).engine.issued = s.engine.issued := by
      cases e with
      | tick frame => rw [faceStep, faceTick_stopped frame s h]; exact ⟨h, rfl⟩
      | settle r => exact ⟨faceSettle_stopped r s h, faceSettle_issued r s⟩
    rw [faceRun_cons]
    obtain ⟨ha, hi⟩ := ih (faceStep e s) hstep.1
    exact ⟨ha, by rw [hi, hstep.2]⟩

/-! ## Claim theorems -/

/-- C1: the claim fails on the code.  The single-flight guard
`if (isProcessing) return` reads the closure-captured binding, which stays
false, so a tick that fires while the first submission is still unsettled
(`inFlight = 1`, live `isProcessing = true`) samples and submits again:
after two ticks with no settlement in between, two classification calls
are in flight. -/
theorem c1_single_flight_guard_ineffective :
    (faceRun [FaceEvent.tick (some "frame1")] faceSystemInit).engine.inFlight = 1 ∧
    (faceRun [FaceEvent.tick (some "frame1")] faceSystemInit).engine.isProcessing = true ∧
    (faceRun [FaceEvent.tick (some "frame1"),
              FaceEvent.tick (some "frame2")] faceSystemInit).engine.inFlight = 2 ∧
    (faceRun [FaceEvent.tick (some "frame1"),
              FaceEvent.tick (some "frame2")] faceSystemInit).engine.issued = 2 :=
  ⟨rfl, rfl, rfl, rfl⟩

/-- C2: camera acquisition tries the tiers in the given order and stops at
the first success (the tier returned is the first available one, and the
attempted list is the failing prefix followed by that tier); if every tier
fails, the result is the camera-unavailable failure: the user-visible
failure message is set and polling is never started. -/
theorem c2_tier_order_first_success_failure :
    (∀ (avail : String → Bool) (tiers : List String),
        (tryQualities avail tiers).2 = List.find? avail tiers) ∧
    (∀ (avail : String → Bool) (tiers : List String) (q : String),
        (tryQualities avail tiers).2 = some q →
        (tryQualities avail tiers).1 = tiers.takeWhile (fun t => !avail t) ++ [q]) ∧
    (∀ (avail : String → Bool) (tiers : List String),
        (tryQualities avail tiers).2 = none →
        initializeCamera avail tiers =
          { cameraQuality := none, message := cameraFailMsg, pollingStarted := false }) := by
  refine ⟨?_, ?_, ?_⟩
  · intro avail tiers
    induction tiers with
    | nil => rfl
    | cons q qs ih =>
      by_cases h : avail q = true
      · simp [tryQualities, h, List.find?_cons_of_pos]
      · simp only [Bool.not_eq_true] at h
        simp [tryQualities, h, List.find?_cons_of_neg, ih]
  · intro avail tiers
    induction tiers with
    | nil => intro q hq; simp [tryQualities] at hq
    | cons t ts ih =>
      intro q hq
      by_cases h : avail t = true
      · simp [tryQualities, h] at hq ⊢
        simp [List.takeWhile_cons, h, hq]
      · simp only [Bool.not_eq_true] at h
        simp [tryQualities, h] at hq ⊢
        simp [List.takeWhile_cons, h, ih q hq]
  · intro avail tiers h
    simp [initializeCamera, h]

/-- Witness for C2 at concrete inputs: with only the medium tier
available, the loop attempts high then medium and stops; with no tier
available, initialization fails with the failure message and polling never
starts. -/
theorem c2_witness :
    (tryQualities (fun t => t == "medium") qualities).1
      = qualities.takeWhile (fun t => !(t == "medium")) ++ ["medium"] ∧
    initializeCamera (fun _ => false) qualities
      = { cameraQuality := none, message := cameraFailMsg, pollingStarted := false } :=
  ⟨c2_tier_order_first_success_failure.2.1 (fun t => t == "medium") qualities "medium" rfl,
   c2_tier_order_first_success_failure.2.2 (fun _ => false) qualities rfl⟩

/-- C3: a settlement with `success = true` clears the interval (and no
sequence of later events submits another call), and the controller moves
to the main view storing exactly the record the response carried; a
settlement with `success = false` and action `register_prompt` clears the
interval likewise and the controller moves to the gesture view. -/
theorem c3_success_stops_and_routes :
    ∀ (s : FaceSystem) (u : Option UserRec) (a m : Option String),
    ((faceSettle (FaceResult.ok ⟨true, u, a, m⟩) s).engine.intervalActive = false ∧
     (faceSettle (FaceResult.ok ⟨true, u, a, m⟩) s).app.currentView = "main" ∧
     (faceSettle (FaceResult.ok ⟨true, u, a, m⟩) s).app.user = u ∧
     (∀ evs, (faceRun evs (faceSettle (FaceResult.ok ⟨true, u, a, m⟩) s)).engine.issued
        = (faceSettle (FaceResult.ok ⟨true, u, a, m⟩) s).engine.issued)) ∧
    ((faceSettle (FaceResult.ok ⟨false, u, some "register_prompt", m⟩) s).engine.intervalActive = false ∧
     (faceSettle (FaceResult.ok ⟨false, u, some "register_prompt", m⟩) s).app.currentView = "gesture" ∧
     (∀ evs, (faceRun evs (faceSettle (FaceResult.ok ⟨false, u, some "register_prompt", m⟩) s)).engine.issued
        = (faceSettle (FaceResult.ok ⟨false, u, some "register_prompt", m⟩) s).engine.issued)) := by
  intro s u a m
  refine ⟨⟨?_, ?_, ?_, ?_⟩, ?_, ?_, ?_⟩
  · simp [faceSettle]
  · simp [faceSettle, handleLoginSuccess]
  · simp [faceSettle, handleLoginSuccess]
  · intro evs
    exact (faceRun_frozen evs _ (by simp [faceSettle])).2
  · simp [faceSettle]
  · simp [faceSettle, handleRegisterPrompt]
  · intro evs
    exact (faceRun_frozen evs _ (by simp [faceSettle])).2

/-- C4: a settlement with `success = false` and an action other than
`register_prompt` returns the engine to idle, surfaces the response
message, leaves the interval as it was (keeps polling) and does not touch
the controller; a transport failure does the same with the generic
unavailability message.  No remote failure clears the interval or
escapes past the engine. -/
theorem c4_retry_and_service_error :
    ∀ (s : FaceSystem) (u : Option UserRec) (a m : Option String),
    a ≠ some "register_prompt" →
    ((faceSettle (FaceResult.ok ⟨false, u, a, m⟩) s).engine.isProcessing = false ∧
     (faceSettle (FaceResult.ok ⟨false, u, a, m⟩) s).engine.message = m ∧
     (faceSettle (FaceResult.ok ⟨false, u, a, m⟩) s).engine.intervalActive = s.engine.intervalActive ∧
     (faceSettle (FaceResult.ok ⟨false, u, a, m⟩) s).app = s.app) ∧
    ((faceSettle FaceResult.netError s).engine.isProcessing = false ∧
     (faceSettle FaceResult.netError s).engine.message = some serviceUnavailableMsg ∧
     (faceSettle FaceResult.netError s).engine.intervalActive = s.engine.intervalActive ∧
     (faceSettle FaceResult.netError s).app = s.app) := by
  intro s u a m h
  refine ⟨⟨?_, ?_, ?_, ?_⟩, ⟨?_, ?_, ?_, ?_⟩⟩ <;> simp [faceSettle, h]

/-- Witness for C4: a concrete retry response surfaces its own message and
a concrete transport failure surfaces the generic message, both leaving
the interval scheduled. -/
theorem c4_witness :
    (faceSettle (FaceResult.ok ⟨false, none, some "retry", some "Face not centered"⟩)
        faceSystemInit).engine.message = some "Face not centered" ∧
    (faceSettle (FaceResult.ok ⟨false, none, some "retry", some "Face not centered"⟩)
        faceSystemInit).engine.intervalActive = true ∧
    (faceSettle FaceResult.netError faceSystemInit).engine.message = some serviceUnavailableMsg :=
  ⟨(c4_retry_and_service_error faceSystemInit none (some "retry") (some "Face not centered")
      (by decide)).1.2.1,
   (c4_retry_and_service_error faceSystemInit none (some "retry") (some "Face not centered")
      (by decide)).1.2.2.1,
   (c4_retry_and_service_error faceSystemInit none (some "retry") (some "Face not centered")
      (by decide)).2.2.1⟩

/-- C5 counterexample: a gesture call is issued at a tick; the user then
stops the engine via the manual decline (live stop flag cleared, decline
scheduled); when the pre-stop call settles with a detected left gesture
its outcome is NOT discarded: it overwrites `gestureDetected`, and once
the two scheduled timeouts fire, both outcomes are emitted and the
controller ends on the register view.  The claim says a post-stop
settlement mutates nothing and emits nothing. -/
theorem c5_counterexample :
    (gestureRun [GestureEvent.tick (some "g1"), GestureEvent.clickNo,
        GestureEvent.settle (GestureResult.ok ⟨true, true, some "left"⟩)]
        gestureSystemInit).engine.gestureDetected = some "left" ∧
    (gestureRun [GestureEvent.tick (some "g1"), GestureEvent.clickNo,
        GestureEvent.settle (GestureResult.ok ⟨true, true, some "left"⟩),
        GestureEvent.fire 0, GestureEvent.fire 0]
        gestureSystemInit).engine.emitted = [GEmit.guestAccess, GEmit.registrationStart] ∧
    (gestureRun [GestureEvent.tick (some "g1"), GestureEvent.clickNo,
        GestureEvent.settle (GestureResult.ok ⟨true, true, some "left"⟩),
        GestureEvent.fire 0, GestureEvent.fire 0]
        gestureSystemInit).app.currentView = "register" :=
  ⟨rfl, rfl, rfl⟩

/-- C5 amended: after stop (the live detecting flag is false), the outcome
of a call issued before the stop is still applied in full when it
settles — the settlement handler does not consult the stop flag: a
detected left gesture overwrites the recorded gesture and the status
message and schedules its emission. -/
theorem c5_inflight_outcome_applied_after_stop :
    ∀ (s : GestureSystem) (d : GestureResponse),
    s.engine.isDetecting = false →
    d.success = true → d.detected = true → d.gesture = some "left" →
    (gestureSettle (GestureResult.ok d) s).engine.gestureDetected = some "left" ∧
    (gestureSettle (GestureResult.ok d) s).engine.message = yesDetectedMsg ∧
    (gestureSettle (GestureResult.ok d) s).engine.pending
      = s.engine.pending ++ [{ delayMs := 2000, emit := GEmit.registrationStart }] := by
  intro s d hstop hs hd hg
  refine ⟨?_, ?_, ?_⟩ <;> simp [gestureSettle, hs, hd, hg]

/-- Witness for C5 amended: the concrete stopped state reached by a tick
followed by the manual decline, settled with a detected left gesture. -/
theorem c5_witness :
    (gestureSettle (GestureResult.ok ⟨true, true, some "left"⟩)
        (gestureRun [GestureEvent.tick (some "g1"), GestureEvent.clickNo]
          gestureSystemInit)).engine.gestureDetected = some "left" ∧
    (gestureSettle (GestureResult.ok ⟨true, true, some "left"⟩)
        (gestureRun [GestureEvent.tick (some "g1"), GestureEvent.clickNo]
          gestureSystemInit)).engine.pending
      = (gestureRun [GestureEvent.tick (some "g1"), GestureEvent.clickNo]
          gestureSystemInit).engine.pending
        ++ [{ delayMs := 2000, emit := GEmit.registrationStart }] :=
  ⟨(c5_inflight_outcome_applied_after_stop
      (gestureRun [GestureEvent.tick (some "g1"), GestureEvent.clickNo] gestureSystemInit)
      ⟨true, true, some "left"⟩ rfl rfl rfl rfl).1,
   (c5_inflight_outcome_applied_after_stop
      (gestureRun [GestureEvent.tick (some "g1"), GestureEvent.clickNo] gestureSystemInit)
      ⟨true, true, some "left"⟩ rfl rfl rfl rfl).2.2⟩

/-- C6 counterexample: logout from the main view with a stored record only
switches the view; the user record is retained, not discarded (the claim
requires it cleared). -/
theorem c6_counterexample :
    handleBackToCamera { currentView := "main", user := some { name := "A", email := "a@x.com" } }
      = { currentView := "camera", user := some { name := "A", email := "a@x.com" } } :=
  rfl

/-- C6 amended: from any view the logout / restart handler transitions to
the camera view with the user record retained unchanged, and the departing
camera-owning view's unmount cleanup stops every track of its stream. -/
theorem c6_logout_transition :
    ∀ (v : String) (u : Option UserRec) (tracks : List Bool),
    handleBackToCamera { currentView := v, user := u } = { currentView := "camera", user := u } ∧
    unmountCleanup (some tracks) = some (stopTracks tracks) ∧
    (stopTracks tracks).all (fun b => b == false) = true := by
  intro v u tracks
  refine ⟨rfl, rfl, ?_⟩
  simp [stopTracks, List.all_eq_true]

/-- C7: the claim fails on the code.  A settlement with a detected left
gesture clears the live detecting flag and schedules the affirm outcome
with the 2000 ms confirmation delay (firing it routes the controller to
the register view) — but polling does not stop: the tick handler's stop
check reads the closure-captured detecting flag, which stays true, so the
next tick still samples and submits a further classification call and the
interval stays scheduled. -/
theorem c7_left_detection_keeps_polling :
    (gestureRun [GestureEvent.tick (some "g1"),
        GestureEvent.settle (GestureResult.ok ⟨true, true, some "left"⟩)]
        gestureSystemInit).engine.isDetecting = false ∧
    (gestureRun [GestureEvent.tick (some "g1"),
        GestureEvent.settle (GestureResult.ok ⟨true, true, some "left"⟩)]
        gestureSystemInit).engine.pending
      = [{ delayMs := 2000, emit := GEmit.registrationStart }] ∧
    (gestureRun [GestureEvent.tick (some "g1"),
        GestureEvent.settle (GestureResult.ok ⟨true, true, some "left"⟩),
        GestureEvent.tick (some "g2")]
        gestureSystemInit).engine.issued = 2 ∧
    (gestureRun [GestureEvent.tick (some "g1"),
        GestureEvent.settle (GestureResult.ok ⟨true, true, some "left"⟩),
        GestureEvent.tick (some "g2")]
        gestureSystemInit).engine.intervalActive = true ∧
    (gestureRun [GestureEvent.tick (some "g1"),
        GestureEvent.settle (GestureResult.ok ⟨true, true, some "left"⟩),
        GestureEvent.fire 0]
        gestureSystemInit).app.currentView = "register" :=
  ⟨rfl, rfl, rfl, rfl, rfl⟩

/-- C8 counterexample: invoking the manual affirm control does not emit
the outcome immediately and does not bypass the confirmation delay — it
only schedules the outcome 1500 ms later (nothing emitted yet) — and it
does not stop polling: the next tick still submits a call. -/
theorem c8_counterexample :
    (gestureRun [GestureEvent.clickYes] gestureSystemInit).engine.emitted = [] ∧
    (gestureRun [GestureEvent.clickYes] gestureSystemInit).engine.pending
      = [{ delayMs := 1500, emit := GEmit.registrationStart }] ∧
    (gestureRun [GestureEvent.clickYes, GestureEvent.tick (some "g1")]
        gestureSystemInit).engine.issued = 1 :=
  ⟨rfl, rfl, rfl⟩

/-- C8 amended: while no outcome has been triggered (detecting flag set)
both manual controls are enabled; invoking either at once disables both
controls and schedules the corresponding outcome after a fixed 1500 ms
delay (shorter than the 2000 ms automatic delay, but not immediate),
emitting nothing yet and leaving the interval scheduled; once the flag is
cleared both controls are disabled and clicking them is a no-op, so no
second manual emission can ever be produced by the controls. -/
theorem c8_manual_controls :
    ∀ s : GestureSystem,
    (s.engine.isDetecting = true →
      manualButtonsDisabled s = false ∧
      (handleManualYes s).engine.isDetecting = false ∧
      manualButtonsDisabled (handleManualYes s) = true ∧
      (handleManualYes s).engine.emitted = s.engine.emitted ∧
      (handleManualYes s).engine.pending
        = s.engine.pending ++ [{ delayMs := 1500, emit := GEmit.registrationStart }] ∧
      (handleManualYes s).engine.intervalActive = s.engine.intervalActive ∧
      (handleManualNo s).engine.isDetecting = false ∧
      manualButtonsDisabled (handleManualNo s) = true ∧
      (handleManualNo s).engine.emitted = s.engine.emitted ∧
      (handleManualNo s).engine.pending
        = s.engine.pending ++ [{ delayMs := 1500, emit := GEmit.guestAccess }]) ∧
    (s.engine.isDetecting = false →
      manualButtonsDisabled s = true ∧ handleManualYes s = s ∧ handleManualNo s = s) := by
  intro s
  constructor
  · intro h
    refine ⟨?_, ?_, ?_, ?_, ?_, ?_, ?_, ?_, ?_, ?_⟩ <;>
      simp [manualButtonsDisabled, handleManualYes, handleManualNo, h]
  · intro h
    refine ⟨?_, ?_, ?_⟩ <;> simp [manualButtonsDisabled, handleManualYes, handleManualNo, h]

/-- Witness for C8 amended: at the freshly mounted gesture view the
controls are enabled and the affirm click schedules its 1500 ms outcome
without emitting; after the click both controls are disabled and a second
click is a no-op. -/
theorem c8_witness :
    manualButtonsDisabled gestureSystemInit = false ∧
    (handleManualYes gestureSystemInit).engine.pending
      = gestureSystemInit.engine.pending
        ++ [{ delayMs := 1500, emit := GEmit.registrationStart }] ∧
    manualButtonsDisabled (handleManualYes gestureSystemInit) = true ∧
    handleManualYes (handleManualYes gestureSystemInit) = handleManualYes gestureSystemInit :=
  ⟨(c8_manual_controls gestureSystemInit).1 rfl |>.1,
   (c8_manual_controls gestureSystemInit).1 rfl |>.2.2.2.2.1,
   (c8_manual_controls gestureSystemInit).1 rfl |>.2.2.1,
   ((c8_manual_controls (handleManualYes gestureSystemInit)).2 rfl).2.1⟩

/-- C9: every guest path produces the same constant record: the shared
`handleGuestAccess` (reached from the decline gesture, the manual decline
fallback and the registration form's continue-as-guest button) stores
exactly the Guest record; the decline paths schedule exactly the
guest-access callback, and firing it stores the Guest record. -/
theorem c9_guest_record_constant :
    (∀ s : AppState, handleGuestAccess s = { currentView := "guest", user := some guestUser }) ∧
    (∀ s : AppState, registrationGuestClick s = { currentView := "guest", user := some guestUser }) ∧
    (∀ s : GestureSystem, s.engine.isDetecting = true →
      (handleManualNo s).engine.pending
        = s.engine.pending ++ [{ delayMs := 1500, emit := GEmit.guestAccess }]) ∧
    (∀ (s : GestureSystem) (d : GestureResponse),
      d.success = true → d.detected = true → d.gesture = some "right" →
      (gestureSettle (GestureResult.ok d) s).engine.pending
        = s.engine.pending ++ [{ delayMs := 2000, emit := GEmit.guestAccess }]) ∧
    (∀ (s : GestureSystem) (i : Nat) (p : PendingEmit),
      s.engine.pending.get? i = some p → p.emit = GEmit.guestAccess →
      (fireAt i s).app.user = some guestUser ∧ (fireAt i s).app.currentView = "guest") ∧
    guestUser = { name := "Guest", email := "guest@example.com" } := by
  refine ⟨?_, ?_, ?_, ?_, ?_, rfl⟩
  · intro s; rfl
  · intro s; rfl
  · intro s h; simp [handleManualNo, h]
  · intro s d hs hd hg
    simp [gestureSettle, hs, hd, hg]
  · intro s i p hp hemit
    obtain ⟨delay, emit⟩ := p
    cases hemit
    unfold fireAt
    rw [hp]
    exact ⟨rfl, rfl⟩

/-- Witness for C9: the concrete run tick, decline response, fire ends
with the Guest record stored and the guest view shown. -/
theorem c9_witness :
    (handleManualNo gestureSystemInit).engine.pending
      = gestureSystemInit.engine.pending ++ [{ delayMs := 1500, emit := GEmit.guestAccess }] ∧
    (gestureSettle (GestureResult.ok ⟨true, true, some "right"⟩) gestureSystemInit).engine.pending
      = gestureSystemInit.engine.pending ++ [{ delayMs := 2000, emit := GEmit.guestAccess }] ∧
    (fireAt 0 (handleManualNo gestureSystemInit)).app.user = some guestUser :=
  ⟨c9_guest_record_constant.2.2.1 gestureSystemInit rfl,
   c9_guest_record_constant.2.2.2.1 gestureSystemInit ⟨true, true, some "right"⟩ rfl rfl rfl,
   (c9_guest_record_constant.2.2.2.2.1 (handleManualNo gestureSystemInit) 0
      { delayMs := 1500, emit := GEmit.guestAccess } rfl rfl).1⟩

/-- C10: `renderView` is total and any view string outside the six
recognised ones falls into the default branch, which renders the camera
interface — no value yields an empty screen. -/
theorem c10_default_renders_camera :
    ∀ v : String, v ∉ recognizedViews → renderView v = Component.cameraInterface := by
  intro v h
  simp only [recognizedViews, List.mem_cons, List.not_mem_nil, or_false, not_or] at h
  obtain ⟨h1, h2, h3, h4, h5, h6⟩ := h
  simp [renderView, h1, h2, h3, h4, h5, h6]

/-- Witness for C10: a concrete unrecognised view string renders the
camera interface. -/
theorem c10_witness :
    "splash" ∉ recognizedViews ∧ renderView "splash" = Component.cameraInterface :=
  ⟨by decide, c10_default_renders_camera "splash" (by decide)⟩

end NewEraAI
